import Mathlib

/-!
Verification of the HOPE assessment form's conditional-visibility logic,
stale-data clearing effects, checkbox mutual-exclusion handler, signature
list cardinality, discharge defaults, and date-ordering validation.

The definitions below are a shallow embedding of the React components in
`src/components/sections` (SectionA, SectionJ, SectionM, SectionN, SectionZ),
the checkbox-group change handler in `src/components/forms/FormCheckboxGroup.tsx`,
the static code tables in `src/lib/constants/cms-codes.ts`, and the discharge
page defaults in `src/app/assessments/discharge/page.tsx`.
-/

/-- Calendar date, serialized in the app as a YYYY-MM-DD string; the numeric
key reproduces the chronological (equivalently, lexicographic) order of those
strings. -/
structure Date where
  year : Nat
  month : Nat
  day : Nat
deriving DecidableEq, Repr

def Date.key (d : Date) : Nat := d.year * 10000 + d.month * 100 + d.day

def Date.le (a b : Date) : Bool := decide (a.key ≤ b.key)

/-- One Z0400 signature entry, as appended by SectionZ
(`{ signature: "", title: "", sections: "", date: "" }`); an empty date string
is modelled as `none`. -/
structure SignatureEntry where
  signature : String
  title : String
  sections : String
  date : Option Date
deriving Repr

def emptySignature : SignatureEntry :=
  { signature := "", title := "", sections := "", date := none }

/-- A0250 REASON_FOR_RECORD code table from `src/lib/constants/cms-codes.ts`. -/
def REASON_FOR_RECORD : List (String × String) :=
  [("1", "Admission (ADM)"),
   ("2", "HOPE Update Visit 1 (HUV1)"),
   ("3", "HOPE Update Visit 2 (HUV2)"),
   ("4", "Transfer to different hospice - planned discharge"),
   ("5", "Transfer to different hospice - change in ownership"),
   ("6", "Transfer to different hospice - other"),
   ("7", "Transfer within same hospice - change in CCN"),
   ("8", "Transfer within same hospice - change in ownership"),
   ("9", "Discharge (DC)")]

/-- Label lookup in a code table (value, label). -/
def reasonLabel (code : String) : Option String :=
  (REASON_FOR_RECORD.find? (fun p => decide (p.1 = code))).map Prod.snd

/-- A1005 ETHNICITY_OPTIONS values (no "Z" entry in the source table). -/
def ETHNICITY_OPTIONS : List (String × String) :=
  [("A", "No, not of Hispanic, Latino/a, or Spanish origin"),
   ("B", "Yes, Mexican, Mexican American, Chicano/a"),
   ("C", "Yes, Puerto Rican"),
   ("D", "Yes, Cuban"),
   ("E", "Yes, another Hispanic, Latino, or Spanish origin"),
   ("X", "Patient unable to respond"),
   ("Y", "Patient declines to respond")]

def ETHNICITY_OPTION_VALUES : List String := ETHNICITY_OPTIONS.map Prod.fst

/-- A1400 PAYER_OPTIONS values (no "Z" entry in the source table). -/
def PAYER_OPTIONS : List (String × String) :=
  [("A", "Medicare (traditional fee-for-service)"),
   ("B", "Medicare (managed care/Part C/Medicare Advantage)"),
   ("C", "Medicaid (traditional fee-for-service)"),
   ("D", "Medicaid (managed care)"),
   ("E", "Title V / Other Federal"),
   ("F", "Workers' Compensation"),
   ("G", "Other government (e.g., TRICARE, VA, etc.)"),
   ("H", "Private Insurance/Medigap"),
   ("I", "Private managed care"),
   ("J", "Self-pay"),
   ("K", "No payer source"),
   ("X", "Unknown"),
   ("Y", "Other")]

def PAYER_OPTION_VALUES : List String := PAYER_OPTIONS.map Prod.fst

/-- M1195 SKIN_CONDITION_TYPES option values (labels omitted; "Z" is the
designated none-of-the-above option). -/
def SKIN_CONDITION_TYPE_VALUES : List String :=
  ["A", "B", "C", "D", "E", "F", "G", "H", "Y", "Z"]

/-- M1200 SKIN_TREATMENTS option values ("Z" is the designated
none-of-the-above option). -/
def SKIN_TREATMENT_VALUES : List String :=
  ["A", "B", "C", "D", "E", "F", "G", "H", "I", "J", "Z"]

/-- SYMPTOM_TYPES keys A-H (Pain .. Agitation) from the constants table. -/
def SYMPTOM_KEYS : List String := ["A", "B", "C", "D", "E", "F", "G", "H"]

/-- The in-progress assessment record: the React Hook Form value store,
restricted to the fields the conditional logic reads or writes. Unset fields
are `none`; checkbox groups are boolean maps keyed by option code (an option
never toggled reads as `false`, matching `field.value || false`). -/
structure HopeRecord where
  A0250 : Option String
  A0215 : Option String
  A1005 : String → Bool
  A1010 : String → Bool
  A1110_A : Option String
  A1110_B : Option String
  A0220 : Option Date
  J2050_A : Option String
  J2050_B : Option Date
  J2051_A : Option String
  J2051_B : Option String
  J2051_C : Option String
  J2051_D : Option String
  J2051_E : Option String
  J2051_F : Option String
  J2051_G : Option String
  J2051_H : Option String
  J2052_A : Option String
  J2052_B : Option Date
  J2052_C : Option String
  M1190 : Option String
  M1195 : String → Bool
  M1200 : String → Bool
  N0500_A : Option String
  N0500_B : Option Date
  N0510_A : Option String
  N0510_B : Option Date
  N0520_A : Option String
  N0520_B : Option Date
  Z0350 : Option Date
  Z0400 : List SignatureEntry
  Z0500_B : Option Date

def emptyHopeRecord : HopeRecord :=
  { A0250 := none, A0215 := none, A1005 := fun _ => false, A1010 := fun _ => false
    A1110_A := none, A1110_B := none, A0220 := none
    J2050_A := none, J2050_B := none
    J2051_A := none, J2051_B := none, J2051_C := none, J2051_D := none
    J2051_E := none, J2051_F := none, J2051_G := none, J2051_H := none
    J2052_A := none, J2052_B := none, J2052_C := none
    M1190 := none, M1195 := fun _ => false, M1200 := fun _ => false
    N0500_A := none, N0500_B := none, N0510_A := none, N0510_B := none
    N0520_A := none, N0520_B := none
    Z0350 := none, Z0400 := [], Z0500_B := none }

/-- SectionA: `const isAdmission = reasonForRecord === "1"`. -/
def isAdmission (r : HopeRecord) : Bool := decide (r.A0250 = some "1")

/-- SectionJ: `const showSymptomAssessment = screeningCompleted === "1"`. -/
def showSymptomAssessment (r : HopeRecord) : Bool := decide (r.J2050_A = some "1")

/-- SectionJ: the `symptoms` array of the eight watched J2051 slot values. -/
def j2051Values (r : HopeRecord) : List (Option String) :=
  [r.J2051_A, r.J2051_B, r.J2051_C, r.J2051_D,
   r.J2051_E, r.J2051_F, r.J2051_G, r.J2051_H]

/-- SectionJ `hasModerateOrSevereSymptom`: false when the assessment itself is
not visible, otherwise true when some slot is "2" (Moderate) or "3" (Severe). -/
def hasModerateOrSevereSymptom (r : HopeRecord) : Bool :=
  if !(showSymptomAssessment r) then false
  else (j2051Values r).any (fun v => decide (v = some "2") || decide (v = some "3"))

def showSFVSection (r : HopeRecord) : Bool := hasModerateOrSevereSymptom r

/-- SectionJ: `const showSFVDate = sfvCompleted === "1"`. -/
def showSFVDate (r : HopeRecord) : Bool := decide (r.J2052_A = some "1")

/-- SectionJ: `const showSFVReason = sfvCompleted === "0"`. -/
def showSFVReason (r : HopeRecord) : Bool := decide (r.J2052_A = some "0")

/-- SectionJ: `showSFVSymptomImpact = showSFVSection && sfvCompleted === "1"`. -/
def showSFVSymptomImpact (r : HopeRecord) : Bool :=
  showSFVSection r && decide (r.J2052_A = some "1")

/-- SectionM: `const showSkinDetails = hasSkinConditions === "1"`. -/
def showSkinDetails (r : HopeRecord) : Bool := decide (r.M1190 = some "1")

/-- SectionN: `const showScheduledOpioidDate = scheduledOpioidInitiated === "1"`. -/
def showScheduledOpioidDate (r : HopeRecord) : Bool := decide (r.N0500_A = some "1")

/-- SectionN: `const showPRNOpioidDate = prnOpioidInitiated === "1"`. -/
def showPRNOpioidDate (r : HopeRecord) : Bool := decide (r.N0510_A = some "1")

/-- SectionN `anyOpioidInitiated`, which is also `showBowelRegimen`. -/
def showBowelRegimen (r : HopeRecord) : Bool :=
  showScheduledOpioidDate r || showPRNOpioidDate r

/-- SectionN: `const showBowelRegimenDate = bowelRegimenStatus === "2"`. -/
def showBowelRegimenDate (r : HopeRecord) : Bool := decide (r.N0520_A = some "2")

/-- Dot-addressed paths of the conditionally governed fields. -/
inductive FieldPath
  | A0205 | A0215 | A0998 | A1805 | A1005 | A1010 | A1110A | A1110B
  | J2050A | J2050B | J2051 (k : String) | J2052A | J2052B | J2052C | J2053 (k : String)
  | M1190 | M1195 | M1200
  | N0500A | N0500B | N0510A | N0510B | N0520A | N0520B

/-- The active (rendered) field set: a field is active exactly when the JSX
conditional guarding its form control evaluates to true. -/
def active (r : HopeRecord) : FieldPath → Bool
  | FieldPath.A0205 => isAdmission r
  | FieldPath.A0215 => isAdmission r
  | FieldPath.A0998 => isAdmission r
  | FieldPath.A1805 => isAdmission r
  | FieldPath.A1005 => isAdmission r
  | FieldPath.A1010 => isAdmission r
  | FieldPath.A1110A => isAdmission r
  | FieldPath.A1110B => isAdmission r
  | FieldPath.J2050A => true
  | FieldPath.J2050B => showSymptomAssessment r
  | FieldPath.J2051 k => showSymptomAssessment r && decide (k ∈ SYMPTOM_KEYS)
  | FieldPath.J2052A => showSFVSection r
  | FieldPath.J2052B => showSFVSection r && showSFVDate r
  | FieldPath.J2052C => showSFVSection r && showSFVReason r
  | FieldPath.J2053 k => showSFVSymptomImpact r && decide (k ∈ SYMPTOM_KEYS)
  | FieldPath.M1190 => true
  | FieldPath.M1195 => showSkinDetails r
  | FieldPath.M1200 => showSkinDetails r
  | FieldPath.N0500A => true
  | FieldPath.N0500B => showScheduledOpioidDate r
  | FieldPath.N0510A => true
  | FieldPath.N0510B => showPRNOpioidDate r
  | FieldPath.N0520A => showBowelRegimen r
  | FieldPath.N0520B => showBowelRegimen r && showBowelRegimenDate r

/-- The `required` prop each field's form control is rendered with: every
conditionally governed field carries `required` except A0205, A0998 and A1805,
which are rendered with `required={false}`. -/
def requiredFlag : FieldPath → Bool
  | FieldPath.A0205 => false
  | FieldPath.A0998 => false
  | FieldPath.A1805 => false
  | _ => true

/-- A field is required when it is active and its control carries `required`. -/
def requiredField (r : HopeRecord) (f : FieldPath) : Bool :=
  active r f && requiredFlag f

/-- Point update of a checkbox-group boolean map (one `form.setValue`). -/
def setOpt (s : String → Bool) (k : String) (b : Bool) : String → Bool :=
  fun x => if x = k then b else s x

/-- `forEach` loop setting every listed option to false (the SectionM clearing
effect runs this over SKIN_CONDITION_TYPES and SKIN_TREATMENTS). -/
def clearAll (keys : List String) (s : String → Bool) : String → Bool :=
  keys.foldl (fun acc k => setOpt acc k false) s

/-- SectionM stale-data effect: when `showSkinDetails` is false, clear every
M1195 and M1200 checkbox. -/
def sectionMClearEffect (r : HopeRecord) : HopeRecord :=
  if !(showSkinDetails r) then
    { r with M1195 := clearAll SKIN_CONDITION_TYPE_VALUES r.M1195,
             M1200 := clearAll SKIN_TREATMENT_VALUES r.M1200 }
  else r

/-- SectionN stale-data effect: when `showBowelRegimen` is false, set N0520.A
and N0520.B to undefined. -/
def sectionNClearEffect (r : HopeRecord) : HopeRecord :=
  if !(showBowelRegimen r) then { r with N0520_A := none, N0520_B := none }
  else r

/-- All stale-data clearing the app performs after a mutation: the SectionM and
SectionN effects. No other section clears values (SectionA and SectionJ only
hide their conditional fields). -/
def applyClearEffects (r : HopeRecord) : HopeRecord :=
  sectionNClearEffect (sectionMClearEffect r)

/-- Write the J2050.A field (one field-mutation event). -/
def writeJ2050A (r : HopeRecord) (v : Option String) : HopeRecord :=
  { r with J2050_A := v }

/-- Write the A0250 discriminant field (one field-mutation event). -/
def writeA0250 (r : HopeRecord) (v : Option String) : HopeRecord :=
  { r with A0250 := v }

/-- Discharge page `useForm` defaults: A0250 preset to "6", Z0400 an empty
array (to be initialized by the SectionZ effect). -/
def dischargeDefaultValues : HopeRecord :=
  { emptyHopeRecord with A0250 := some "6", Z0400 := [] }

/-- Initial checkbox-group state: nothing toggled, every option reads false
(`field.value || false` on an undefined value). -/
def initGroupState : String → Bool := fun _ => false

/-- The inner loop of the FormCheckboxGroup handler when "Z" is being checked:
`options.forEach(opt => { if (opt.value !== "Z") setValue(opt, false) })`. -/
def clearOthers (options : List String) (s : String → Bool) : String → Bool :=
  options.foldl (fun acc opt => if opt = "Z" then acc else setOpt acc opt false) s

/-- FormCheckboxGroup `onCheckedChange` for option `v` of a group with option
list `options`: if "Z" is being checked, every other option is forced false;
if a non-"Z" option is being checked and the group's "Z" value is true, "Z" is
forced false; finally the toggled option itself is set
(`field.onChange(checked === true)`). -/
def toggleOption (options : List String) (v : String) (checked : Bool)
    (s : String → Bool) : String → Bool :=
  let s1 :=
    if v = "Z" then
      if checked then clearOthers options s else s
    else
      if checked then (if s "Z" = true then setOpt s "Z" false else s) else s
  setOpt s1 v checked

/-- A sequence of single-option toggles through the group handler. -/
def applyToggles (options : List String) (seq : List (String × Bool))
    (s : String → Bool) : String → Bool :=
  seq.foldl (fun acc p => toggleOption options p.1 p.2 acc) s

/-- Mutual-exclusion invariant for a group whose designated none-option is "Z":
when "Z" is checked, every other listed option is unchecked. -/
def NoneExclusive (options : List String) (s : String → Bool) : Prop :=
  s "Z" = true → ∀ o ∈ options, o ≠ "Z" → s o = false

theorem clearAll_cons (k : String) (t : List String) (s : String → Bool) :
    clearAll (k :: t) s = clearAll t (setOpt s k false) := rfl

theorem clearAll_not_mem (keys : List String) (s : String → Bool) (o : String)
    (h : o ∉ keys) : clearAll keys s o = s o := by
  induction keys generalizing s with
  | nil => rfl
  | cons k t ih =>
      have hok : o ≠ k := fun e => h (e ▸ List.mem_cons_self k t)
      have hot : o ∉ t := fun m => h (List.mem_cons_of_mem k m)
      rw [clearAll_cons, ih (setOpt s k false) hot]
      simp [setOpt, hok]

theorem clearAll_mem (keys : List String) (s : String → Bool) (o : String)
    (h : o ∈ keys) : clearAll keys s o = false := by
  induction keys generalizing s with
  | nil => cases h
  | cons k t ih =>
      rw [clearAll_cons]
      by_cases ht : o ∈ t
      · exact ih _ ht
      · have hk : o = k := by
          rcases List.mem_cons.mp h with e | m
          · exact e
          · exact absurd m ht
        rw [clearAll_not_mem t _ o ht]
        simp [setOpt, hk]

theorem clearOthers_cons (k : String) (t : List String) (s : String → Bool) :
    clearOthers (k :: t) s = clearOthers t (if k = "Z" then s else setOpt s k false) := rfl

theorem clearOthers_z (options : List String) (s : String → Bool) :
    clearOthers options s "Z" = s "Z" := by
  induction options generalizing s with
  | nil => rfl
  | cons k t ih =>
      rw [clearOthers_cons, ih]
      by_cases hk : k = "Z"
      · simp [hk]
      · simp [hk, setOpt, Ne.symm hk]

theorem clearOthers_not_mem (options : List String) (s : String → Bool) (o : String)
    (h : o ∉ options) : clearOthers options s o = s o := by
  induction options generalizing s with
  | nil => rfl
  | cons k t ih =>
      have hok : o ≠ k := fun e => h (e ▸ List.mem_cons_self k t)
      have hot : o ∉ t := fun m => h (List.mem_cons_of_mem k m)
      rw [clearOthers_cons, ih _ hot]
      by_cases hk : k = "Z"
      · simp [hk]
      · simp [hk, setOpt, hok]

theorem clearOthers_mem (options : List String) (s : String → Bool) (o : String)
    (h : o ∈ options) (hz : o ≠ "Z") : clearOthers options s o = false := by
  induction options generalizing s with
  | nil => cases h
  | cons k t ih =>
      rw [clearOthers_cons]
      by_cases ht : o ∈ t
      · exact ih _ ht
      · have hk : o = k := by
          rcases List.mem_cons.mp h with e | m
          · exact e
          · exact absurd m ht
        rw [clearOthers_not_mem t _ o ht]
        subst hk
        simp [hz, setOpt]

theorem toggleOption_z_after (options : List String) (v : String) (checked : Bool)
    (s : String → Bool) (hv : v ≠ "Z") :
    toggleOption options v checked s "Z" = false ∨
      toggleOption options v checked s "Z" = s "Z" := by
  unfold toggleOption
  simp only [hv, if_false]
  by_cases hc : checked
  · by_cases hz : s "Z" = true
    · left
      simp [hc, hz, setOpt, Ne.symm hv]
    · right
      simp [hc, hz, setOpt, Ne.symm hv]
  · right
    simp [hc, setOpt, Ne.symm hv]

theorem toggleOption_preserves (options : List String) (v : String) (checked : Bool)
    (s : String → Bool) (h : NoneExclusive options s) :
    NoneExclusive options (toggleOption options v checked s) := by
  by_cases hv : v = "Z"
  · subst hv
    by_cases hc : checked
    · intro _ o ho hoz
      unfold toggleOption
      simp only [if_pos rfl, hc, if_true]
      show setOpt (clearOthers options s) "Z" true o = false
      simp [setOpt, hoz, clearOthers_mem options s o ho hoz]
    · intro hz
      unfold toggleOption at hz
      simp only [if_pos rfl, hc, if_false] at hz
      simp [setOpt] at hz
  · by_cases hc : checked
    · intro hz
      rcases toggleOption_z_after options v checked s hv with hfalse | hsame
      · rw [hz] at hfalse; cases hfalse
      · -- when a non-Z option is checked, Z ends up false
        unfold toggleOption at hz
        simp only [hv, if_false, hc, if_true] at hz
        by_cases hzs : s "Z" = true
        · simp [hzs, setOpt, Ne.symm hv] at hz
        · simp [hzs, setOpt, Ne.symm hv] at hz
    · intro hz o ho hoz
      unfold toggleOption at hz ⊢
      simp only [hv, if_false, hc, if_false] at hz ⊢
      have hzs : s "Z" = true := by
        simpa [setOpt, Ne.symm hv] using hz
      have := h hzs o ho hoz
      simp [setOpt, this]

theorem applyToggles_preserves (options : List String) (seq : List (String × Bool)) :
    ∀ s : String → Bool, NoneExclusive options s →
      NoneExclusive options (applyToggles options seq s) := by
  induction seq with
  | nil => intro s h; exact h
  | cons p t ih =>
      intro s h
      exact ih _ (toggleOption_preserves options p.1 p.2 s h)

theorem initGroupState_exclusive (options : List String) :
    NoneExclusive options initGroupState := by
  intro h
  simp [initGroupState] at h

/-- SectionZ `addSignature`: append an empty entry only while fewer than the
CMS maximum of 12 signatures are present (the Add button is also disabled at
12). -/
def addSignature (l : List SignatureEntry) : List SignatureEntry :=
  if l.length < 12 then l ++ [emptySignature] else l

/-- SectionZ removal: the Remove button of entry `i` calls `remove(i)` but is
disabled when only one entry remains, so the deletion of the last remaining
entry is rejected. -/
def removeSignature (l : List SignatureEntry) (i : Nat) : List SignatureEntry :=
  if l.length = 1 then l else l.eraseIdx i

/-- SectionZ mount effect: when the Z0400 array is empty, append one empty
signature entry. -/
def ensureOneSignature (l : List SignatureEntry) : List SignatureEntry :=
  if l.length = 0 then l ++ [emptySignature] else l

/-- The two user-level mutations of the Z0400 signature array. -/
inductive ZOp
  | add
  | remove (i : Nat)

def applyZOp (l : List SignatureEntry) : ZOp → List SignatureEntry
  | ZOp.add => addSignature l
  | ZOp.remove i => removeSignature l i

def applyZOps (ops : List ZOp) (l : List SignatureEntry) : List SignatureEntry :=
  ops.foldl applyZOp l

theorem eraseIdx_length_bounds {α : Type} (l : List α) (i : Nat) :
    l.length - 1 ≤ (l.eraseIdx i).length ∧ (l.eraseIdx i).length ≤ l.length := by
  induction l generalizing i with
  | nil => simp [List.eraseIdx]
  | cons a t ih =>
      cases i with
      | zero => simp [List.eraseIdx]
      | succ j =>
          have := ih j
          simp only [List.eraseIdx, List.length_cons]
          omega

theorem applyZOp_preserves (l : List SignatureEntry) (op : ZOp)
    (h1 : 1 ≤ l.length) (h2 : l.length ≤ 12) :
    1 ≤ (applyZOp l op).length ∧ (applyZOp l op).length ≤ 12 := by
  cases op with
  | add =>
      show 1 ≤ (addSignature l).length ∧ (addSignature l).length ≤ 12
      unfold addSignature
      by_cases hlt : l.length < 12
      · simp [hlt]
        omega
      · simp [hlt]
        omega
  | remove i =>
      show 1 ≤ (removeSignature l i).length ∧ (removeSignature l i).length ≤ 12
      unfold removeSignature
      by_cases hone : l.length = 1
      · simp [hone]
      · have := eraseIdx_length_bounds l i
        simp [hone]
        omega

theorem applyZOps_preserves (ops : List ZOp) :
    ∀ l : List SignatureEntry, 1 ≤ l.length → l.length ≤ 12 →
      1 ≤ (applyZOps ops l).length ∧ (applyZOps ops l).length ≤ 12 := by
  induction ops with
  | nil => intro l h1 h2; exact ⟨h1, h2⟩
  | cons op t ih =>
      intro l h1 h2
      have := applyZOp_preserves l op h1 h2
      exact ih (applyZOp l op) this.1 this.2

/-- Names of the date fields appearing in the chronological chain. -/
inductive DateFieldName
  | A0220 | J2050B | J2052B | Z0350 | Z0400 (i : Nat) | Z0500B
deriving DecidableEq, Repr

/-- Modelled from the spec: no `validateOrdering` implementation exists under
src/ (only the declarative SKIP_PATTERNS.DATE_RELATIONSHIPS rule text and the
SectionZ/FormDate guidance declare the ordering), so the chain is taken from
the spec's words: admission/event date (A0220) ≤ screening date (J2050.B) ≤
follow-up-visit date (J2052.B) ≤ record-completion date (Z0350) ≤ each Z0400
signature date ≤ verification date (Z0500.B). The signature dates are placed,
in array order, between Z0350 and Z0500.B. -/
def dateChain (r : HopeRecord) : List (DateFieldName × Option Date) :=
  [(DateFieldName.A0220, r.A0220),
   (DateFieldName.J2050B, r.J2050_B),
   (DateFieldName.J2052B, r.J2052_B),
   (DateFieldName.Z0350, r.Z0350)]
    ++ r.Z0400.enum.map (fun p => (DateFieldName.Z0400 p.1, p.2.date))
    ++ [(DateFieldName.Z0500B, r.Z0500_B)]

/-- Modelled from the spec: the chain restricted to present fields — absent
fields are skipped, not treated as violations. -/
def presentDates (r : HopeRecord) : List (DateFieldName × Date) :=
  (dateChain r).filterMap (fun p => p.2.map (fun d => (p.1, d)))

/-- Modelled from the spec: consecutive present chain entries that violate the
chronological order, each violation naming the two fields. -/
def orderingViolations : List (DateFieldName × Date) → List (DateFieldName × DateFieldName)
  | [] => []
  | [_] => []
  | a :: b :: rest =>
      (if Date.le a.2 b.2 then [] else [(a.1, b.1)]) ++ orderingViolations (b :: rest)

/-- Modelled from the spec: `validateOrdering(record) → ValidationResult`, the
list of ordering violations among the present date fields of the chain. -/
def validateOrdering (r : HopeRecord) : List (DateFieldName × DateFieldName) :=
  orderingViolations (presentDates r)

theorem orderingViolations_mem (l : List (DateFieldName × Date))
    (p : DateFieldName × DateFieldName) (h : p ∈ orderingViolations l) :
    p.1 ∈ l.map Prod.fst ∧ p.2 ∈ l.map Prod.fst := by
  induction l with
  | nil => cases h
  | cons a t ih =>
      cases t with
      | nil => cases h
      | cons b rest =>
          rw [orderingViolations] at h
          rcases List.mem_append.mp h with hin | hin
          · by_cases hle : Date.le a.2 b.2
            · simp [hle] at hin
            · simp [hle] at hin
              subst hin
              constructor
              · simp
              · simp
          · have := ih hin
            constructor
            · exact List.mem_cons_of_mem _ this.1
            · exact List.mem_cons_of_mem _ this.2
theorem sectionMClearEffect_shape (r : HopeRecord) :
    sectionMClearEffect r = r ∨
      sectionMClearEffect r =
        { r with M1195 := clearAll SKIN_CONDITION_TYPE_VALUES r.M1195,
                 M1200 := clearAll SKIN_TREATMENT_VALUES r.M1200 } := by
  unfold sectionMClearEffect
  split
  · right; rfl
  · left; rfl

theorem sectionNClearEffect_shape (r : HopeRecord) :
    sectionNClearEffect r = r ∨
      sectionNClearEffect r = { r with N0520_A := none, N0520_B := none } := by
  unfold sectionNClearEffect
  split
  · right; rfl
  · left; rfl

theorem sectionMClearEffect_clears (r : HopeRecord) (h : showSkinDetails r = false) :
    (sectionMClearEffect r).M1195 = clearAll SKIN_CONDITION_TYPE_VALUES r.M1195 ∧
    (sectionMClearEffect r).M1200 = clearAll SKIN_TREATMENT_VALUES r.M1200 := by
  unfold sectionMClearEffect
  simp [h]

theorem sectionNClearEffect_clears (r : HopeRecord) (h : showBowelRegimen r = false) :
    (sectionNClearEffect r).N0520_A = none ∧ (sectionNClearEffect r).N0520_B = none := by
  unfold sectionNClearEffect
  simp [h]

theorem hasModerateOrSevere_iff (r : HopeRecord) :
    hasModerateOrSevereSymptom r = true ↔
      (r.J2050_A = some "1" ∧ ∃ v ∈ j2051Values r, v = some "2" ∨ v = some "3") := by
  unfold hasModerateOrSevereSymptom showSymptomAssessment
  by_cases h : r.J2050_A = some "1"
  · simp [h, List.any_eq_true]
  · simp [h]

/-- C9: on creation of the Discharge assessment, the `useForm` defaults preset
the discriminant A0250 to code "6", which the static REASON_FOR_RECORD table
maps to "Transfer to different hospice - other" — not to the Discharge code
"9" (mapped to "Discharge (DC)") — so a freshly opened Discharge form starts
with a transfer-variant discriminant. -/
theorem c9_discharge_default_discriminant :
    dischargeDefaultValues.A0250 = some "6" ∧
    reasonLabel "6" = some "Transfer to different hospice - other" ∧
    ("6" : String) ≠ "9" ∧
    reasonLabel "9" = some "Discharge (DC)" := by decide

/-- C2: visibility is transitive through the Section J chain: whenever
screening-completed J2050.A is not "1", the J2051 slots, J2052 (A, B and C)
and the J2053 slots are all absent from the active set, regardless of the
values the descendant triggers hold. -/
theorem c2_transitive_cascade (r : HopeRecord) (k : String)
    (h : r.J2050_A ≠ some "1") :
    active r (FieldPath.J2051 k) = false ∧
    active r FieldPath.J2052A = false ∧
    active r FieldPath.J2052B = false ∧
    active r FieldPath.J2052C = false ∧
    active r (FieldPath.J2053 k) = false := by
  have hs : showSymptomAssessment r = false := by
    simp [showSymptomAssessment, h]
  have hm : hasModerateOrSevereSymptom r = false := by
    simp [hasModerateOrSevereSymptom, hs]
  refine ⟨?_, ?_, ?_, ?_, ?_⟩ <;>
    simp [active, showSFVSection, showSFVSymptomImpact, hs, hm]

/-- Record with screening not completed while J2051.A holds "3" (Severe) and
J2052.A holds "1": the descendants' own triggers would fire, yet all stay
hidden. -/
def c2WitnessRecord : HopeRecord :=
  { emptyHopeRecord with
      J2050_A := some "0", J2051_A := some "3"
      J2052_A := some "1" }

theorem c2_transitive_cascade_witness :
    active c2WitnessRecord (FieldPath.J2051 "A") = false ∧
    active c2WitnessRecord FieldPath.J2052A = false ∧
    active c2WitnessRecord FieldPath.J2052B = false ∧
    active c2WitnessRecord FieldPath.J2052C = false ∧
    active c2WitnessRecord (FieldPath.J2053 "A") = false :=
  c2_transitive_cascade c2WitnessRecord "A" (by decide)

/-- C4: J2052 is shown and required exactly when screening is completed and
some J2051 slot is "2" or "3"; given that, J2052.A = "1" shows and requires
the date J2052.B and every J2053 slot while hiding the reason J2052.C, and
J2052.A = "0" shows and requires the reason J2052.C while hiding J2052.B and
J2053. -/
theorem c4_sfv_chain :
    (∀ r : HopeRecord,
        (active r FieldPath.J2052A = true ∧ requiredField r FieldPath.J2052A = true) ↔
          (r.J2050_A = some "1" ∧ ∃ v ∈ j2051Values r, v = some "2" ∨ v = some "3")) ∧
    (∀ r : HopeRecord, ∀ k ∈ SYMPTOM_KEYS,
        active r FieldPath.J2052A = true → r.J2052_A = some "1" →
          requiredField r FieldPath.J2052B = true ∧
          requiredField r (FieldPath.J2053 k) = true ∧
          active r FieldPath.J2052C = false) ∧
    (∀ (r : HopeRecord) (k : String),
        active r FieldPath.J2052A = true → r.J2052_A = some "0" →
          requiredField r FieldPath.J2052C = true ∧
          active r (FieldPath.J2053 k) = false ∧
          active r FieldPath.J2052B = false) := by
  refine ⟨?_, ?_, ?_⟩
  · intro r
    have hreq : requiredField r FieldPath.J2052A = active r FieldPath.J2052A := by
      show (active r FieldPath.J2052A && true) = active r FieldPath.J2052A
      exact Bool.and_true _
    rw [hreq, and_self]
    show showSFVSection r = true ↔ _
    exact hasModerateOrSevere_iff r
  · intro r k hk ha h1
    have hsec : showSFVSection r = true := ha
    refine ⟨?_, ?_, ?_⟩
    · show ((showSFVSection r && showSFVDate r) && true) = true
      simp [hsec, showSFVDate, h1]
    · show ((showSFVSymptomImpact r && decide (k ∈ SYMPTOM_KEYS)) && true) = true
      simp [showSFVSymptomImpact, hsec, h1, hk]
    · show (showSFVSection r && showSFVReason r) = false
      simp [showSFVReason, h1]
  · intro r k ha h0
    have hsec : showSFVSection r = true := ha
    refine ⟨?_, ?_, ?_⟩
    · show ((showSFVSection r && showSFVReason r) && true) = true
      simp [hsec, showSFVReason, h0]
    · show (showSFVSymptomImpact r && decide (k ∈ SYMPTOM_KEYS)) = false
      simp [showSFVSymptomImpact, h0]
    · show (showSFVSection r && showSFVDate r) = false
      simp [showSFVDate, h0]

/-- Record with screening completed, J2051.C severe, and the follow-up visit
completed. -/
def c4WitnessRecord : HopeRecord :=
  { emptyHopeRecord with
      J2050_A := some "1", J2051_C := some "3"
      J2052_A := some "1" }

theorem c4_sfv_chain_witness :
    requiredField c4WitnessRecord FieldPath.J2052B = true ∧
    requiredField c4WitnessRecord (FieldPath.J2053 "A") = true ∧
    active c4WitnessRecord FieldPath.J2052C = false :=
  c4_sfv_chain.2.1 c4WitnessRecord "A" (by decide) (by decide) (by decide)

/-- C5: the bowel-regimen section N0520 is active exactly when N0500.A = "1"
or N0510.A = "1", and whenever neither opioid flag is "1" the clearing effect
resets both N0520.A and N0520.B to undefined. -/
theorem c5_bowel_regimen :
    (∀ r : HopeRecord, active r FieldPath.N0520A = true ↔
        (r.N0500_A = some "1" ∨ r.N0510_A = some "1")) ∧
    (∀ r : HopeRecord, ¬ (r.N0500_A = some "1" ∨ r.N0510_A = some "1") →
        (applyClearEffects r).N0520_A = none ∧ (applyClearEffects r).N0520_B = none) := by
  constructor
  · intro r
    show showBowelRegimen r = true ↔ _
    simp [showBowelRegimen, showScheduledOpioidDate, showPRNOpioidDate]
  · intro r h
    have hA : ¬ r.N0500_A = some "1" := fun e => h (Or.inl e)
    have hB : ¬ r.N0510_A = some "1" := fun e => h (Or.inr e)
    have hb : showBowelRegimen (sectionMClearEffect r) = false := by
      rcases sectionMClearEffect_shape r with hm | hm <;> rw [hm] <;>
        simp [showBowelRegimen, showScheduledOpioidDate, showPRNOpioidDate, hA, hB]
    unfold applyClearEffects
    exact sectionNClearEffect_clears _ hb

/-- Record with both opioid flags "0" while the bowel-regimen fields still
hold values, including a date. -/
def c5WitnessRecord : HopeRecord :=
  { emptyHopeRecord with
      N0500_A := some "0", N0510_A := some "0"
      N0520_A := some "2", N0520_B := some { year := 2024, month := 3, day := 1 } }

theorem c5_bowel_regimen_witness :
    (applyClearEffects c5WitnessRecord).N0520_A = none ∧
    (applyClearEffects c5WitnessRecord).N0520_B = none :=
  c5_bowel_regimen.2 c5WitnessRecord (by decide)
/-- Record in which screening is completed and J2051.A holds "2" (Moderate),
so J2051.A is active. -/
def c1StartRecord : HopeRecord :=
  { emptyHopeRecord with J2050_A := some "1", J2051_A := some "2" }

/-- The state after mutating J2050.A to "0" and running every clearing effect
the app has. -/
def c1MutatedRecord : HopeRecord :=
  applyClearEffects (writeJ2050A c1StartRecord (some "0"))

/-- C1 counterexample: J2051.A transitions from active to inactive when
J2050.A is mutated from "1" to "0", yet after all clearing effects it still
holds its old value "2" — a hidden field retains a stale value. -/
theorem c1_counterexample :
    active c1StartRecord (FieldPath.J2051 "A") = true ∧
    active c1MutatedRecord (FieldPath.J2051 "A") = false ∧
    c1MutatedRecord.J2051_A = some "2" := by decide

/-- C1 (amended): the clearing that runs after a mutation covers only the skin
groups M1195/M1200 (all options forced false when M1190 is not "1") and the
bowel-regimen fields N0520.A/N0520.B (set undefined when neither opioid flag
is "1"); the Section J conditional fields, the opioid dates N0500.B/N0510.B
and the admission-only Section A fields are never cleared and may retain
stale values while inactive. -/
theorem c1_amended_clearing_scope (r : HopeRecord) :
    (r.M1190 ≠ some "1" →
      (∀ o ∈ SKIN_CONDITION_TYPE_VALUES, (applyClearEffects r).M1195 o = false) ∧
      (∀ o ∈ SKIN_TREATMENT_VALUES, (applyClearEffects r).M1200 o = false)) ∧
    (¬ (r.N0500_A = some "1" ∨ r.N0510_A = some "1") →
      (applyClearEffects r).N0520_A = none ∧ (applyClearEffects r).N0520_B = none) ∧
    ((applyClearEffects r).J2051_A = r.J2051_A ∧
     (applyClearEffects r).J2052_B = r.J2052_B ∧
     (applyClearEffects r).J2052_C = r.J2052_C ∧
     (applyClearEffects r).N0500_B = r.N0500_B ∧
     (applyClearEffects r).N0510_B = r.N0510_B ∧
     (applyClearEffects r).A0215 = r.A0215 ∧
     (applyClearEffects r).A1005 = r.A1005 ∧
     (applyClearEffects r).A1010 = r.A1010 ∧
     (applyClearEffects r).A1110_A = r.A1110_A ∧
     (applyClearEffects r).A1110_B = r.A1110_B) := by
  refine ⟨?_, ?_, ?_⟩
  · intro h
    have hs : showSkinDetails r = false := by
      simp [showSkinDetails, h]
    have hm := sectionMClearEffect_clears r hs
    have h95 : (applyClearEffects r).M1195 = clearAll SKIN_CONDITION_TYPE_VALUES r.M1195 := by
      unfold applyClearEffects
      rcases sectionNClearEffect_shape (sectionMClearEffect r) with rn | rn <;>
        rw [rn] <;> exact hm.1
    have h00 : (applyClearEffects r).M1200 = clearAll SKIN_TREATMENT_VALUES r.M1200 := by
      unfold applyClearEffects
      rcases sectionNClearEffect_shape (sectionMClearEffect r) with rn | rn <;>
        rw [rn] <;> exact hm.2
    constructor
    · intro o ho
      rw [h95]
      exact clearAll_mem _ _ o ho
    · intro o ho
      rw [h00]
      exact clearAll_mem _ _ o ho
  · intro h
    have hA : ¬ r.N0500_A = some "1" := fun e => h (Or.inl e)
    have hB : ¬ r.N0510_A = some "1" := fun e => h (Or.inr e)
    have hb : showBowelRegimen (sectionMClearEffect r) = false := by
      rcases sectionMClearEffect_shape r with hmm | hmm <;> rw [hmm] <;>
        simp [showBowelRegimen, showScheduledOpioidDate, showPRNOpioidDate, hA, hB]
    unfold applyClearEffects
    exact sectionNClearEffect_clears _ hb
  · unfold applyClearEffects
    rcases sectionNClearEffect_shape (sectionMClearEffect r) with rn | rn <;>
      rcases sectionMClearEffect_shape r with hmm | hmm <;>
      rw [rn, hmm] <;>
      exact ⟨rfl, rfl, rfl, rfl, rfl, rfl, rfl, rfl, rfl, rfl⟩

/-- Record with no skin conditions but a checked M1195 option, and with no
opioids but a populated bowel regimen. -/
def c1WitnessRecord : HopeRecord :=
  { emptyHopeRecord with
      M1190 := some "0", M1195 := fun x => decide (x = "A")
      N0500_A := some "0", N0510_A := some "0", N0520_A := some "2" }

theorem c1_amended_clearing_scope_witness :
    (applyClearEffects c1WitnessRecord).M1195 "A" = false ∧
    (applyClearEffects c1WitnessRecord).N0520_A = none := by
  have h := c1_amended_clearing_scope c1WitnessRecord
  exact ⟨(h.1 (by decide)).1 "A" (by decide), (h.2.1 (by decide)).1⟩

/-- Admission record with the site-of-service field populated. -/
def c8StartRecord : HopeRecord :=
  { emptyHopeRecord with A0250 := some "1", A0215 := some "01" }

/-- The state after changing the discriminant to "9" (Discharge) mid-edit and
running every clearing effect the app has. -/
def c8MutatedRecord : HopeRecord :=
  applyClearEffects (writeA0250 c8StartRecord (some "9"))

/-- C8 counterexample: changing A0250 away from "1" removes A0215 from the
active set, but its stored value "01" is not dropped from the record. -/
theorem c8_counterexample :
    active c8StartRecord FieldPath.A0215 = true ∧
    active c8MutatedRecord FieldPath.A0215 = false ∧
    c8MutatedRecord.A0215 = some "01" := by decide

/-- C8 (amended): A0215, A1005, A1010 and A1110 are active exactly when the
discriminant A0250 is "1" (Admission); when the discriminant changes away
from "1" they leave the active set, but their stored values are retained in
the record — no clearing pass drops them. -/
theorem c8_amended_admission_fields :
    (∀ r : HopeRecord,
        (active r FieldPath.A0215 = true ↔ r.A0250 = some "1") ∧
        (active r FieldPath.A1005 = true ↔ r.A0250 = some "1") ∧
        (active r FieldPath.A1010 = true ↔ r.A0250 = some "1") ∧
        (active r FieldPath.A1110A = true ↔ r.A0250 = some "1") ∧
        (active r FieldPath.A1110B = true ↔ r.A0250 = some "1")) ∧
    (∀ (r : HopeRecord) (v : Option String),
        (applyClearEffects (writeA0250 r v)).A0215 = r.A0215 ∧
        (applyClearEffects (writeA0250 r v)).A1005 = r.A1005 ∧
        (applyClearEffects (writeA0250 r v)).A1010 = r.A1010 ∧
        (applyClearEffects (writeA0250 r v)).A1110_A = r.A1110_A ∧
        (applyClearEffects (writeA0250 r v)).A1110_B = r.A1110_B) := by
  constructor
  · intro r
    have hgoal : isAdmission r = true ↔ r.A0250 = some "1" := by
      simp [isAdmission]
    exact ⟨hgoal, hgoal, hgoal, hgoal, hgoal⟩
  · intro r v
    unfold applyClearEffects
    rcases sectionNClearEffect_shape (sectionMClearEffect (writeA0250 r v)) with rn | rn <;>
      rcases sectionMClearEffect_shape (writeA0250 r v) with hmm | hmm <;>
      rw [rn, hmm] <;>
      exact ⟨rfl, rfl, rfl, rfl, rfl⟩

theorem c8_amended_admission_fields_witness :
    active (writeA0250 emptyHopeRecord (some "1")) FieldPath.A0215 = true ∧
    (applyClearEffects (writeA0250 c8StartRecord (some "9"))).A0215 = c8StartRecord.A0215 := by
  constructor
  · exact ((c8_amended_admission_fields.1 (writeA0250 emptyHopeRecord (some "1"))).1).mpr
      (by decide)
  · exact (c8_amended_admission_fields.2 c8StartRecord (some "9")).1
/-- C7 counterexample: the discharge page's default Z0400 value is the empty
array, an observable state of length 0 — outside the claimed [1,12] bound —
which the mount effect only repairs afterwards. -/
theorem c7_counterexample :
    dischargeDefaultValues.Z0400.length = 0 ∧
    ¬ (1 ≤ dischargeDefaultValues.Z0400.length) := by decide

/-- C7 (amended): after initialization (the mount effect appends one empty
entry to the empty default array), every state reachable by add/remove
operations keeps the Z0400 length in [1,12]: append is refused at 12 and
removal of the last remaining entry is rejected; only the pre-initialization
default state has length 0. -/
theorem c7_amended_cardinality :
    (ensureOneSignature dischargeDefaultValues.Z0400).length = 1 ∧
    (∀ (ops : List ZOp) (l : List SignatureEntry),
        1 ≤ l.length → l.length ≤ 12 →
          1 ≤ (applyZOps ops l).length ∧ (applyZOps ops l).length ≤ 12) := by
  constructor
  · decide
  · intro ops l h1 h2
    exact applyZOps_preserves ops l h1 h2

theorem c7_amended_cardinality_witness :
    1 ≤ (applyZOps [ZOp.add, ZOp.remove 0] [emptySignature]).length ∧
    (applyZOps [ZOp.add, ZOp.remove 0] [emptySignature]).length ≤ 12 :=
  c7_amended_cardinality.2 [ZOp.add, ZOp.remove 0] [emptySignature]
    (by decide) (by decide)

/-- C3: for a checkbox group whose option list contains the designated "Z"
none-option, after any sequence of single-option toggles through the change
handler, the none-option being true forces every sibling false, and any
sibling being true forces the none-option false. -/
theorem c3_mutual_exclusion (options : List String) (seq : List (String × Bool))
    (_hZ : "Z" ∈ options) :
    ((applyToggles options seq initGroupState) "Z" = true →
      ∀ o ∈ options, o ≠ "Z" → (applyToggles options seq initGroupState) o = false) ∧
    (∀ o ∈ options, o ≠ "Z" → (applyToggles options seq initGroupState) o = true →
      (applyToggles options seq initGroupState) "Z" = false) := by
  have hinv := applyToggles_preserves options seq initGroupState
    (initGroupState_exclusive options)
  constructor
  · exact hinv
  · intro o ho hoz htrue
    cases hb : (applyToggles options seq initGroupState) "Z" with
    | false => rfl
    | true =>
        have hfalse := hinv hb o ho hoz
        rw [htrue] at hfalse
        cases hfalse

theorem c3_mutual_exclusion_witness :
    (applyToggles SKIN_CONDITION_TYPE_VALUES [("A", true), ("Z", true)]
      initGroupState) "A" = false := by
  have h := c3_mutual_exclusion SKIN_CONDITION_TYPE_VALUES
    [("A", true), ("Z", true)] (by decide)
  exact h.1 (by decide) "A" (by decide) (by decide)

/-- C10: the handler's exclusion is keyed to the literal option code "Z"; the
A1005 and A1400 tables contain no "Z" entry, and for any group without "Z"
(starting from a state where the phantom "Z" key is unset) a toggle is a pure
point update with no exclusion, so contradictory options such as A1005.A and
A1005.B can be simultaneously true. -/
theorem c10_exclusion_keyed_to_z :
    ("Z" ∉ ETHNICITY_OPTION_VALUES ∧ "Z" ∉ PAYER_OPTION_VALUES) ∧
    (∀ (options : List String) (v : String) (b : Bool) (s : String → Bool),
        "Z" ∉ options → v ∈ options → s "Z" = false →
          toggleOption options v b s = setOpt s v b) ∧
    ((applyToggles ETHNICITY_OPTION_VALUES [("A", true), ("B", true)]
        initGroupState) "A" = true ∧
     (applyToggles ETHNICITY_OPTION_VALUES [("A", true), ("B", true)]
        initGroupState) "B" = true) := by
  refine ⟨by decide, ?_, by decide⟩
  intro options v b s hZopt hv hsz
  have hvZ : v ≠ "Z" := fun e => hZopt (e ▸ hv)
  unfold toggleOption
  simp only [hvZ, if_false]
  cases b
  · rfl
  · simp [hsz]

theorem c10_exclusion_keyed_to_z_witness :
    toggleOption ETHNICITY_OPTION_VALUES "A" true initGroupState =
      setOpt initGroupState "A" true :=
  c10_exclusion_keyed_to_z.2.1 ETHNICITY_OPTION_VALUES "A" true initGroupState
    (by decide) (by decide) (by decide)

/-- Scenario E record: admission date 2024-01-10, screening date 2024-01-05,
everything else absent. -/
def scenarioERecord : HopeRecord :=
  { emptyHopeRecord with
      A0220 := some { year := 2024, month := 1, day := 10 }
      J2050_B := some { year := 2024, month := 1, day := 5 } }

/-- C6: `validateOrdering` on the Scenario E record reports exactly one
violation, naming the admission date A0220 and the screening date J2050.B;
and in general every reported violation names two fields that are present in
the record's date chain — absent fields are skipped, never reported. -/
theorem c6_validate_ordering :
    validateOrdering scenarioERecord =
      [(DateFieldName.A0220, DateFieldName.J2050B)] ∧
    (∀ (r : HopeRecord) (p : DateFieldName × DateFieldName),
        p ∈ validateOrdering r →
          p.1 ∈ (presentDates r).map Prod.fst ∧
          p.2 ∈ (presentDates r).map Prod.fst) := by
  constructor
  · decide
  · intro r p hp
    exact orderingViolations_mem (presentDates r) p hp

theorem c6_validate_ordering_witness :
    DateFieldName.A0220 ∈ (presentDates scenarioERecord).map Prod.fst ∧
    DateFieldName.J2050B ∈ (presentDates scenarioERecord).map Prod.fst :=
  c6_validate_ordering.2 scenarioERecord
    (DateFieldName.A0220, DateFieldName.J2050B) (by decide)
